import Mathlib

/-!
Verification of the water_lab_wgpu host code: a shallow embedding of the
modal input controller (src/app/controls.rs), the per-frame update and
surface handling (src/app/state.rs, src/main.rs), the parameter sync
functions (src/updates/param_updates.rs) and the startup initialization
(src/init/init_functions.rs). Numeric f32 parameters are modelled as
rationals; GPU side effects are modelled as explicit effect lists.
-/

/-- Physical key codes used by the controls; `other` stands for any further
physical key a held-key set may contain. -/
inductive KeyCode
  | keyD | digit1 | digit2 | digit3 | keyP
  | keyS | keyE | keyW
  | arrowUp | arrowDown | arrowLeft | arrowRight
  | shiftLeft | keyX | keyZ
  | other (n : Nat)
deriving DecidableEq, BEq

/-- The held-key set of KeyboardState, taken only through membership
(the source's HashSet is read only via `contains`). -/
def Keys : Type := KeyCode → Bool

/-- A concrete held-key set given by a list of keys. -/
def Keys.ofList (l : List KeyCode) : Keys := fun k => l.contains k

/-- The five interaction modes of KeyboardMode (controls.rs). -/
inductive KeyboardMode
  | DEBUG | VIEW | TERRAIN | RAY | PRINT
deriving DecidableEq, BEq

/-- RayParams (collections/structs.rs): three f32 fields, modelled as ℚ. -/
structure RayParams where
  epsilon : ℚ
  max_dist : ℚ
  max_steps : ℚ
deriving DecidableEq, BEq

/-- ViewParams (collections/structs.rs): seven f32 fields, modelled as ℚ. -/
structure ViewParams where
  x_shift : ℚ
  y_shift : ℚ
  zoom : ℚ
  x_rot : ℚ
  y_rot : ℚ
  time_modifier : ℚ
  fov_degrees : ℚ
deriving DecidableEq, BEq

/-- TerrainParams (collections/structs.rs): three i32 octave counts. -/
structure TerrainParams where
  f1_octaves : Int
  f2_octaves : Int
  f3_octaves : Int
deriving DecidableEq, BEq

/-- Params (collections/structs.rs). -/
structure Params where
  ray_params : RayParams
  view_params : ViewParams
  terrain_params : TerrainParams
deriving DecidableEq, BEq

/-- The part of State that the input controller reads and writes: the
active mode, the held-key set and the host parameter copies. -/
structure MState where
  mode : KeyboardMode
  keys : Keys
  params : Params

/-- Surface errors of wgpu::SurfaceError as matched in main.rs. -/
inductive SurfaceError
  | Lost | OutOfMemory | Outdated | Timeout
deriving DecidableEq, BEq

/-- GPU and host side effects the per-frame code requests, in order. -/
inductive Effect
  | writeRayParamsBuffer (p : RayParams)
  | writeViewParamsBuffer (p : ViewParams)
  | copyGenericDebug
  | copyDebugArray1
  | copyDebugArray2
  | readGenericDebug
  | readDebugArray1
  | readDebugArray2
  | readInterleave12
  | sleep50
  | printParams
  | printTerrainStub
  | printFocusLost
  | writeTimeUniform
  | submitRender
  | presentFrame
  | configureSurface (w h : Nat)
  | exitLoop
  | logSurfaceError (e : SurfaceError)
  | requestRedraw
deriving DecidableEq, BEq

/-- The mode-selection prologue of update_controls (controls.rs lines
177-197): a fixed if-else chain over membership in the held-key set. -/
def mode_select (m : KeyboardMode) (k : Keys) : KeyboardMode :=
  if k KeyCode.keyD then KeyboardMode.DEBUG
  else if k KeyCode.digit1 then KeyboardMode.TERRAIN
  else if k KeyCode.digit2 then KeyboardMode.VIEW
  else if k KeyCode.digit3 then KeyboardMode.RAY
  else if k KeyCode.keyP then KeyboardMode.PRINT
  else m

/-- The dedicated select key of each mode. -/
def mode_key : KeyboardMode → KeyCode
  | KeyboardMode.DEBUG => KeyCode.keyD
  | KeyboardMode.TERRAIN => KeyCode.digit1
  | KeyboardMode.VIEW => KeyCode.digit2
  | KeyboardMode.RAY => KeyCode.digit3
  | KeyboardMode.PRINT => KeyCode.keyP

/-- The documented priority rank of each mode-select key (lower wins). -/
def mode_prio : KeyboardMode → Nat
  | KeyboardMode.DEBUG => 0
  | KeyboardMode.TERRAIN => 1
  | KeyboardMode.VIEW => 2
  | KeyboardMode.RAY => 3
  | KeyboardMode.PRINT => 4

/-- debug_controls (controls.rs lines 208-244): each branch requests a
blocking readback, sleeps 50ms and forces the mode back to VIEW. -/
def debug_controls (s : MState) : MState × List Effect :=
  if s.keys KeyCode.keyS then
    ({ s with mode := KeyboardMode.VIEW }, [Effect.readGenericDebug, Effect.sleep50])
  else if s.keys KeyCode.digit1 then
    ({ s with mode := KeyboardMode.VIEW }, [Effect.readDebugArray1, Effect.sleep50])
  else if s.keys KeyCode.digit2 then
    ({ s with mode := KeyboardMode.VIEW }, [Effect.readDebugArray2, Effect.sleep50])
  else if s.keys KeyCode.digit3 then
    ({ s with mode := KeyboardMode.VIEW }, [Effect.readInterleave12, Effect.sleep50])
  else (s, [])

/-- The signed per-tick delta of ray_controls: +1 for ArrowUp, else -1 for
ArrowDown, else 0. -/
def ray_dval (k : Keys) : ℚ :=
  if k KeyCode.arrowUp then 1 else if k KeyCode.arrowDown then -1 else 0

/-- ray_controls (controls.rs lines 246-269): KeyE/KeyS/KeyW add the delta
to epsilon/max_steps/max_dist, clamped by f32::max(0, _), then write the
ray-params buffer. -/
def ray_controls (s : MState) : MState × List Effect :=
  let d := ray_dval s.keys
  if s.keys KeyCode.keyE then
    let rp := { s.params.ray_params with
                epsilon := max 0 (s.params.ray_params.epsilon + 1 * d) }
    let s1 := { s with params := { s.params with ray_params := rp } }
    (s1, [Effect.writeRayParamsBuffer rp])
  else if s.keys KeyCode.keyS then
    let rp := { s.params.ray_params with
                max_steps := max 0 (s.params.ray_params.max_steps + 1 * d) }
    let s1 := { s with params := { s.params with ray_params := rp } }
    (s1, [Effect.writeRayParamsBuffer rp])
  else if s.keys KeyCode.keyW then
    let rp := { s.params.ray_params with
                max_dist := max 0 (s.params.ray_params.max_dist + 1 * d) }
    let s1 := { s with params := { s.params with ray_params := rp } }
    (s1, [Effect.writeRayParamsBuffer rp])
  else (s, [])

/-- terrain_controls (controls.rs lines 271-282): a stub that only prints. -/
def terrain_controls (s : MState) : MState × List Effect :=
  (s, [Effect.printTerrainStub])

/-- view_controls (controls.rs lines 284-327): arrows shift (divided by
zoom) or, with ShiftLeft, rotate; rotation is clamped by max(0.0, _) on
the increasing direction only; KeyX/KeyZ change zoom by ∓10% of zoom. -/
def view_controls (s : MState) : MState × List Effect :=
  let vp := s.params.view_params
  let mz := vp.zoom
  if s.keys KeyCode.arrowLeft then
    if s.keys KeyCode.shiftLeft then
      let v1 := { vp with x_rot := max 0 (vp.x_rot + 0.1) }
      ({ s with params := { s.params with view_params := v1 } },
       [Effect.writeViewParamsBuffer v1])
    else
      let v1 := { vp with x_shift := vp.x_shift - 0.01 / mz }
      ({ s with params := { s.params with view_params := v1 } },
       [Effect.writeViewParamsBuffer v1])
  else if s.keys KeyCode.arrowRight then
    if s.keys KeyCode.shiftLeft then
      let v1 := { vp with x_rot := vp.x_rot - 0.1 }
      ({ s with params := { s.params with view_params := v1 } },
       [Effect.writeViewParamsBuffer v1])
    else
      let v1 := { vp with x_shift := vp.x_shift + 0.01 / mz }
      ({ s with params := { s.params with view_params := v1 } },
       [Effect.writeViewParamsBuffer v1])
  else if s.keys KeyCode.arrowUp then
    if s.keys KeyCode.shiftLeft then
      let v1 := { vp with y_rot := max 0 (vp.y_rot + 0.1) }
      ({ s with params := { s.params with view_params := v1 } },
       [Effect.writeViewParamsBuffer v1])
    else
      let v1 := { vp with y_shift := vp.y_shift - 0.01 / mz }
      ({ s with params := { s.params with view_params := v1 } },
       [Effect.writeViewParamsBuffer v1])
  else if s.keys KeyCode.arrowDown then
    if s.keys KeyCode.shiftLeft then
      let v1 := { vp with y_rot := vp.y_rot - 0.1 }
      ({ s with params := { s.params with view_params := v1 } },
       [Effect.writeViewParamsBuffer v1])
    else
      let v1 := { vp with y_shift := vp.y_shift + 0.01 / mz }
      ({ s with params := { s.params with view_params := v1 } },
       [Effect.writeViewParamsBuffer v1])
  else if s.keys KeyCode.keyX then
    let v1 := { vp with zoom := vp.zoom - 0.1 * mz }
    ({ s with params := { s.params with view_params := v1 } },
     [Effect.writeViewParamsBuffer v1])
  else if s.keys KeyCode.keyZ then
    let v1 := { vp with zoom := vp.zoom + 0.1 * mz }
    ({ s with params := { s.params with view_params := v1 } },
     [Effect.writeViewParamsBuffer v1])
  else (s, [])

/-- print_controls (controls.rs lines 329-337): dumps the parameter blocks
and forces the mode to VIEW. -/
def print_controls (s : MState) : MState × List Effect :=
  ({ s with mode := KeyboardMode.VIEW }, [Effect.printParams])

/-- update_controls (controls.rs lines 177-206): the mode-selection chain
followed by exactly one run of the selected mode's handler. -/
def update_controls (s : MState) : MState × List Effect :=
  let s1 : MState := { s with mode := mode_select s.mode s.keys }
  match s1.mode with
  | KeyboardMode.DEBUG => debug_controls s1
  | KeyboardMode.VIEW => view_controls s1
  | KeyboardMode.TERRAIN => terrain_controls s1
  | KeyboardMode.RAY => ray_controls s1
  | KeyboardMode.PRINT => print_controls s1

/-- State::update (state.rs lines 121-125): run the controls, then
unconditionally write the view-params buffer, then copy the three debug
buffers to their cpu-readable shadows. -/
def update (s : MState) : MState × List Effect :=
  let r := update_controls s
  (r.1,
   r.2 ++ [Effect.writeViewParamsBuffer r.1.params.view_params]
       ++ [Effect.copyGenericDebug, Effect.copyDebugArray1, Effect.copyDebugArray2])

/-- init_params (init_functions.rs lines 41-69). -/
def init_params : Params :=
  { ray_params := { epsilon := 0.01, max_dist := 1500.0, max_steps := 2500.0 }
    view_params := { x_shift := 0.0, y_shift := 0.0, zoom := 1.0, x_rot := 0.0,
                     y_rot := 0.0, time_modifier := 1.0, fov_degrees := 90.0 }
    terrain_params := { f1_octaves := 7, f2_octaves := 7, f3_octaves := 7 } }

/-- How a GPU buffer is created at startup: either with initial contents
(create_buffer_init, contents as the ordered f32 values of the cast byte
slice) or merely allocated at a byte size (create_buffer). -/
inductive BufferInit
  | initData (contents : List ℚ)
  | allocated (sizeBytes : Nat)
deriving DecidableEq, BEq

/-- Buffers (collections/structs.rs): the ten buffers State owns. -/
structure Buffers where
  vertex : BufferInit
  time_uniform : BufferInit
  view_params : BufferInit
  ray_params : BufferInit
  generic_debug : BufferInit
  cpu_read_generic_debug : BufferInit
  debug_array1 : BufferInit
  cpu_read_debug_array1 : BufferInit
  debug_array2 : BufferInit
  cpu_read_debug_array2 : BufferInit
deriving DecidableEq, BEq

/-- init_buffers (init_functions.rs lines 71-182): the vertex buffer holds
the six full-screen-quad vertices; the ray and view parameter buffers are
initialized from the Params fields in declaration order; the time uniform
and the six debug buffers are allocated uninitialized at their fixed
sizes. -/
def init_buffers (p : Params) : Buffers :=
  { vertex := BufferInit.initData [-1, -1, 1, -1, -1, 1, 1, -1, 1, 1, -1, 1]
    time_uniform := BufferInit.allocated 4
    ray_params := BufferInit.initData
      [p.ray_params.epsilon, p.ray_params.max_dist, p.ray_params.max_steps]
    view_params := BufferInit.initData
      [p.view_params.x_shift, p.view_params.y_shift, p.view_params.zoom,
       p.view_params.x_rot, p.view_params.y_rot, p.view_params.time_modifier,
       p.view_params.fov_degrees]
    generic_debug := BufferInit.allocated 16
    cpu_read_generic_debug := BufferInit.allocated 16
    debug_array1 := BufferInit.allocated 8192
    cpu_read_debug_array1 := BufferInit.allocated 8192
    debug_array2 := BufferInit.allocated 8192
    cpu_read_debug_array2 := BufferInit.allocated 8192 }

/-- The size and surface-configuration fields of State that resize touches. -/
structure SurfaceState where
  size_w : Nat
  size_h : Nat
  config_w : Nat
  config_h : Nat
deriving DecidableEq, BEq

/-- State::resize (state.rs lines 171-178): only when both dimensions are
non-zero, update the cached size and the surface configuration and
reconfigure the surface; otherwise do nothing. -/
def resize (s : SurfaceState) (w h : Nat) : SurfaceState × List Effect :=
  if 0 < w ∧ 0 < h then
    ({ size_w := w, size_h := h, config_w := w, config_h := h },
     [Effect.configureSurface w h])
  else (s, [])

/-- State::render (state.rs lines 127-169): surface acquisition either
fails with a SurfaceError (propagated by the try operator) or the frame is
recorded, submitted and presented. `acq` is the acquisition outcome. -/
def render_frame (acq : Option SurfaceError) : Except SurfaceError (List Effect) :=
  match acq with
  | some e => Except.error e
  | none => Except.ok [Effect.submitRender, Effect.presentFrame]

/-- The match on state.render() in main.rs lines 43-53: Lost reconfigures
via resize at the cached size, OutOfMemory exits the event loop, any other
error is only logged. -/
def handle_render_result (s : SurfaceState) (r : Except SurfaceError (List Effect)) :
    SurfaceState × List Effect :=
  match r with
  | Except.ok es => (s, es)
  | Except.error SurfaceError.Lost => resize s s.size_w s.size_h
  | Except.error SurfaceError.OutOfMemory => (s, [Effect.exitLoop])
  | Except.error e => (s, [Effect.logSurfaceError e])

/-- The window events main.rs can receive. `redrawRequested` carries the
surface-acquisition outcome of the frame; `resized` carries the new size. -/
inductive WinEvent
  | closeRequested
  | redrawRequested (acq : Option SurfaceError)
  | keyboardInput (key : KeyCode) (pressed : Bool)
  | focused (f : Bool)
  | resized (w h : Nat)
  | otherEvent
deriving DecidableEq

/-- KeyboardState::handle_keyboard_input (controls.rs lines 39-46). -/
def handle_keyboard_input (keys : Keys) (key : KeyCode) (pressed : Bool) : Keys :=
  if pressed then fun k => k == key || keys k
  else fun k => if k == key then false else keys k

/-- The whole mutable state the event loop owns. -/
structure FullState where
  ctrl : MState
  surf : SurfaceState

/-- The WindowEvent match of main.rs lines 30-68. The source matches only
CloseRequested, RedrawRequested, KeyboardInput and Focused; every other
event, a window resize included, falls into the wildcard arm and does
nothing. -/
def handle_window_event (s : FullState) (ev : WinEvent) : FullState × List Effect :=
  match ev with
  | WinEvent.closeRequested => (s, [Effect.exitLoop])
  | WinEvent.redrawRequested acq =>
      let u := update s.ctrl
      let r := handle_render_result s.surf (render_frame acq)
      (⟨u.1, r.1⟩,
       [Effect.writeTimeUniform] ++ u.2 ++ r.2 ++ [Effect.requestRedraw])
  | WinEvent.keyboardInput key pressed =>
      ({ s with ctrl := { s.ctrl with
          keys := handle_keyboard_input s.ctrl.keys key pressed } }, [])
  | WinEvent.focused f =>
      if f then (s, [])
      else ({ s with ctrl := { s.ctrl with keys := fun _ => false } },
            [Effect.printFocusLost])
  | _ => (s, [])

/-- The error type map_async reports to its callback (wgpu's
BufferAsyncError, opaque). -/
inductive MapError
  | bufferAsyncError
deriving DecidableEq, BEq

/-- Observable steps of the debug readback functions. -/
inductive RbEffect
  | mapRequest (which : Nat)
  | printBufferSize
  | devicePoll
  | awaitMap (which : Nat)
  | printRecord (which idx : Nat)
  | printPair (idx : Nat)
  | logChannelError (which : Nat)
  | unmapBuffer (which : Nat)
  | panicked
deriving DecidableEq, BEq

/-- print_gpu_data (controls.rs lines 65-99). `cb` is what the map_async
callback sent through the oneshot channel: `some r` when the callback ran
with mapping result `r`, `none` when it was dropped unrun (channel
canceled). The source matches on the CHANNEL result: a delivered value —
even `Ok(Err(e))`, a failed mapping — takes the Ok arm and calls
get_mapped_range, which on an unmapped buffer is a wgpu validation panic
(modelled as `panicked`); only a canceled channel reaches the error arm
that logs. `n` is the record count of the mapped view. -/
def print_gpu_data (cb : Option (Except MapError Unit)) (n : Nat) : List RbEffect :=
  [RbEffect.mapRequest 1, RbEffect.printBufferSize, RbEffect.devicePoll,
   RbEffect.awaitMap 1] ++
  match cb with
  | some (Except.ok _) =>
      ((List.range n).map fun i => RbEffect.printRecord 1 i) ++ [RbEffect.unmapBuffer 1]
  | some (Except.error _) => [RbEffect.panicked]
  | none => [RbEffect.logChannelError 1]

/-- print_gpu_interleave_two_buffers (controls.rs lines 101-175): buffer1
is mapped and awaited, then buffer2, then the match on both CHANNEL
results: both delivered takes the (Ok, Ok) arm — panicking inside
get_mapped_range if either delivered mapping result was an error — and on
success prints min n1 n2 paired records, then unmaps buffer1 then buffer2;
a canceled channel is logged for its buffer, and nothing else happens on
those arms. -/
def print_gpu_interleave_two_buffers
    (cb1 cb2 : Option (Except MapError Unit)) (n1 n2 : Nat) : List RbEffect :=
  [RbEffect.mapRequest 1, RbEffect.devicePoll, RbEffect.awaitMap 1,
   RbEffect.mapRequest 2, RbEffect.devicePoll, RbEffect.awaitMap 2] ++
  match cb1, cb2 with
  | some r1, some r2 =>
      match r1, r2 with
      | Except.ok _, Except.ok _ =>
          ((List.range (min n1 n2)).map fun i => RbEffect.printPair i)
            ++ [RbEffect.unmapBuffer 1, RbEffect.unmapBuffer 2]
      | _, _ => [RbEffect.panicked]
  | none, some _ => [RbEffect.logChannelError 1]
  | some _, none => [RbEffect.logChannelError 2]
  | none, none => [RbEffect.logChannelError 1, RbEffect.logChannelError 2]

/-- Does an effect list request any debug readback? -/
def hasReadback (l : List Effect) : Bool :=
  l.any fun e =>
    match e with
    | Effect.readGenericDebug => true
    | Effect.readDebugArray1 => true
    | Effect.readDebugArray2 => true
    | Effect.readInterleave12 => true
    | _ => false

/-- Does an effect list request one of the three array readbacks
(the Digit1/Digit2/Digit3 branches of debug_controls)? -/
def hasArrayReadback (l : List Effect) : Bool :=
  l.any fun e =>
    match e with
    | Effect.readDebugArray1 => true
    | Effect.readDebugArray2 => true
    | Effect.readInterleave12 => true
    | _ => false

/-- Does an effect list contain the 50ms debounce sleep? -/
def hasSleep (l : List Effect) : Bool :=
  l.any fun e => match e with | Effect.sleep50 => true | _ => false

/-- Does an effect list write the view-params buffer? -/
def hasViewWrite (l : List Effect) : Bool :=
  l.any fun e => match e with | Effect.writeViewParamsBuffer _ => true | _ => false

/-- Does an effect list write the ray-params buffer? -/
def hasRayWrite (l : List Effect) : Bool :=
  l.any fun e => match e with | Effect.writeRayParamsBuffer _ => true | _ => false

/-- Does an effect list request the next redraw? -/
def hasRequestRedraw (l : List Effect) : Bool :=
  l.any fun e => match e with | Effect.requestRedraw => true | _ => false

/-- Is any of the ten startup buffers initialized with the terrain octave
values [7, 7, 7]? -/
def hasTerrainInitBuffer (b : Buffers) : Prop :=
  let t : BufferInit := BufferInit.initData [7, 7, 7]
  b.vertex = t ∨ b.time_uniform = t ∨ b.view_params = t ∨ b.ray_params = t ∨
  b.generic_debug = t ∨ b.cpu_read_generic_debug = t ∨ b.debug_array1 = t ∨
  b.cpu_read_debug_array1 = t ∨ b.debug_array2 = t ∨ b.cpu_read_debug_array2 = t

/-- The three ray parameters are non-negative. -/
def rayNonneg (s : MState) : Prop :=
  0 ≤ s.params.ray_params.epsilon ∧ 0 ≤ s.params.ray_params.max_steps ∧
  0 ≤ s.params.ray_params.max_dist

/-- One frame's control step: the held-key set observed this frame is `k`,
then update_controls runs. -/
def control_step (s : MState) (k : Keys) : MState :=
  (update_controls { s with keys := k }).1

/-- Run a sequence of frames, one held-key set per frame. -/
def run_frames (s : MState) (ks : List Keys) : MState :=
  ks.foldl control_step s

/-- A frame state with no keys held, in VIEW mode, at the initial
parameters. -/
def mstate0 : MState :=
  { mode := KeyboardMode.VIEW, keys := fun _ => false, params := init_params }

/-- The full event-loop state at startup: initial parameters, PRINT mode,
no keys held, the fixed 1376×768 window size. -/
def fullState0 : FullState :=
  { ctrl := { mode := KeyboardMode.PRINT, keys := fun _ => false, params := init_params }
    surf := { size_w := 1376, size_h := 768, config_w := 1376, config_h := 768 } }

/-- C2 counterexample: at a concrete frame (VIEW mode, no keys held,
initial parameters) the per-frame update writes the view-params buffer but
never the ray-params buffer, so the ray-parameter sync is not invoked on
every frame. -/
theorem update_no_ray_sync_counterexample :
    hasViewWrite (update mstate0).2 = true ∧ hasRayWrite (update mstate0).2 = false := by
  decide

/-- C10 counterexample: no startup buffer is initialized with the terrain
octave values [7, 7, 7] — Terrain Parameters have no corresponding GPU
buffer at all. -/
theorem no_terrain_buffer_counterexample :
    hasTerrainInitBuffer (init_buffers init_params) ↔ False := by
  norm_num [hasTerrainInitBuffer, init_buffers, init_params]
  exact ⟨by decide, by decide, by decide⟩

/-- C6 (code evaluated at the failing input): a window resize event with
the non-zero size 800×600 is ignored by the event loop — it falls into the
wildcard arm, leaving the cached size, the surface configuration and the
surface untouched — even though the resize method itself, had it been
called, would have updated the cached size and configuration and
reconfigured the surface. -/
theorem resized_event_ignored :
    handle_window_event fullState0 (WinEvent.resized 800 600) = (fullState0, []) ∧
    resize fullState0.surf 800 600 =
      ({ size_w := 800, size_h := 600, config_w := 800, config_h := 600 },
       [Effect.configureSurface 800 600]) := by
  exact ⟨rfl, by decide⟩

/-- C7 (code evaluated at the failing input): in the interleaved two-buffer
readback, when buffer1's mapping is not delivered (its channel is
canceled) while buffer2's mapping succeeds, the function only logs
buffer1's error and returns with buffer2 still mapped: no unmap of
buffer2 (nor of buffer1) appears on that path. -/
theorem interleave_mixed_failure_leaves_mapped :
    (print_gpu_interleave_two_buffers none (some (Except.ok ())) 2048 2048).contains
        (RbEffect.unmapBuffer 2) = false ∧
    print_gpu_interleave_two_buffers none (some (Except.ok ())) 2048 2048 =
      [RbEffect.mapRequest 1, RbEffect.devicePoll, RbEffect.awaitMap 1,
       RbEffect.mapRequest 2, RbEffect.devicePoll, RbEffect.awaitMap 2,
       RbEffect.logChannelError 1] := by
  decide

/-- C8 (code evaluated at the failing input): when map_async reports a
mapping failure, the callback delivers Ok(Err(e)) through the channel, the
match takes its Ok arm and get_mapped_range is called on a buffer that is
not mapped — a panic, not a logged error and graceful return: the trace
ends in the panic and contains no log. -/
theorem map_failure_panics :
    print_gpu_data (some (Except.error MapError.bufferAsyncError)) 4 =
      [RbEffect.mapRequest 1, RbEffect.printBufferSize, RbEffect.devicePoll,
       RbEffect.awaitMap 1, RbEffect.panicked] ∧
    (print_gpu_data (some (Except.error MapError.bufferAsyncError)) 4).contains
        (RbEffect.logChannelError 1) = false := by
  decide

theorem params_debug_controls (s : MState) : (debug_controls s).1.params = s.params := by
  unfold debug_controls; split_ifs <;> rfl

theorem params_print_controls (s : MState) : (print_controls s).1.params = s.params := rfl

theorem params_terrain_controls (s : MState) : (terrain_controls s).1.params = s.params := rfl

theorem ray_params_view_controls (s : MState) :
    (view_controls s).1.params.ray_params = s.params.ray_params := by
  unfold view_controls; split_ifs <;> rfl

theorem mode_view_controls (s : MState) : (view_controls s).1.mode = s.mode := by
  unfold view_controls; split_ifs <;> rfl

theorem mode_ray_controls (s : MState) : (ray_controls s).1.mode = s.mode := by
  unfold ray_controls; split_ifs <;> rfl

theorem hasRayWrite_debug_controls (s : MState) :
    hasRayWrite (debug_controls s).2 = false := by
  unfold debug_controls; split_ifs <;> rfl

theorem hasRayWrite_view_controls (s : MState) :
    hasRayWrite (view_controls s).2 = false := by
  unfold view_controls; split_ifs <;> rfl

theorem hasRayWrite_terrain_controls (s : MState) :
    hasRayWrite (terrain_controls s).2 = false := rfl

theorem hasRayWrite_print_controls (s : MState) :
    hasRayWrite (print_controls s).2 = false := rfl

theorem hasRayWrite_ray_controls (s : MState) :
    hasRayWrite (ray_controls s).2 =
      (s.keys KeyCode.keyE || s.keys KeyCode.keyS || s.keys KeyCode.keyW) := by
  unfold ray_controls; split_ifs <;> simp_all [hasRayWrite]

theorem hasReadback_view_controls (s : MState) :
    hasReadback (view_controls s).2 = false := by
  unfold view_controls; split_ifs <;> rfl

theorem hasReadback_ray_controls (s : MState) :
    hasReadback (ray_controls s).2 = false := by
  unfold ray_controls; split_ifs <;> rfl

theorem hasReadback_terrain_controls (s : MState) :
    hasReadback (terrain_controls s).2 = false := rfl

theorem hasReadback_print_controls (s : MState) :
    hasReadback (print_controls s).2 = false := rfl

theorem hasArrayReadback_debug_controls (s : MState) :
    hasArrayReadback (debug_controls s).2 =
      (!s.keys KeyCode.keyS &&
        (s.keys KeyCode.digit1 || s.keys KeyCode.digit2 || s.keys KeyCode.digit3)) := by
  unfold debug_controls; split_ifs <;> simp_all [hasArrayReadback]

theorem hasSleep_debug_controls (s : MState) :
    hasSleep (debug_controls s).2 =
      (s.keys KeyCode.keyS || s.keys KeyCode.digit1 || s.keys KeyCode.digit2 ||
        s.keys KeyCode.digit3) := by
  unfold debug_controls; split_ifs <;> simp_all [hasSleep]

theorem mode_debug_controls (s : MState) :
    (debug_controls s).1.mode =
      (if s.keys KeyCode.keyS || s.keys KeyCode.digit1 || s.keys KeyCode.digit2 ||
          s.keys KeyCode.digit3 then KeyboardMode.VIEW else s.mode) := by
  unfold debug_controls; split_ifs <;> simp_all

/-- C10 (amended): the initial parameter values are exactly those of
init_params, the ray- and view-parameter GPU buffers are initialized with
exactly these values in field order, and no GPU buffer is initialized from
the Terrain Parameters (they have no corresponding buffer). -/
theorem init_params_buffers_amended :
    init_params =
      { ray_params := { epsilon := 0.01, max_dist := 1500.0, max_steps := 2500.0 }
        view_params := { x_shift := 0.0, y_shift := 0.0, zoom := 1.0, x_rot := 0.0,
                         y_rot := 0.0, time_modifier := 1.0, fov_degrees := 90.0 }
        terrain_params := { f1_octaves := 7, f2_octaves := 7, f3_octaves := 7 } }
    ∧ (init_buffers init_params).ray_params =
        BufferInit.initData [0.01, 1500.0, 2500.0]
    ∧ (init_buffers init_params).view_params =
        BufferInit.initData [0.0, 0.0, 1.0, 0.0, 0.0, 1.0, 90.0]
    ∧ ¬ hasTerrainInitBuffer (init_buffers init_params) := by
  refine ⟨rfl, rfl, rfl, ?_⟩
  norm_num [hasTerrainInitBuffer, init_buffers, init_params]
  exact ⟨by decide, by decide, by decide⟩

/-- C5: the classification of surface-acquisition failure during render:
success records, submits and presents the frame; Lost reconfigures the
surface via resize at the current cached size; OutOfMemory exits the event
loop; Outdated and Timeout are only logged and the state is untouched; the
redraw arm always requests the next redraw, so a failed frame is retried
naturally on the next redraw. -/
theorem render_error_classification : ∀ (s : SurfaceState) (fs : FullState),
    render_frame none = Except.ok [Effect.submitRender, Effect.presentFrame]
    ∧ handle_render_result s (render_frame (some SurfaceError.Lost)) =
        resize s s.size_w s.size_h
    ∧ (0 < s.size_w ∧ 0 < s.size_h →
        handle_render_result s (render_frame (some SurfaceError.Lost)) =
          ({ size_w := s.size_w, size_h := s.size_h,
             config_w := s.size_w, config_h := s.size_h },
           [Effect.configureSurface s.size_w s.size_h]))
    ∧ handle_render_result s (render_frame (some SurfaceError.OutOfMemory)) =
        (s, [Effect.exitLoop])
    ∧ handle_render_result s (render_frame (some SurfaceError.Outdated)) =
        (s, [Effect.logSurfaceError SurfaceError.Outdated])
    ∧ handle_render_result s (render_frame (some SurfaceError.Timeout)) =
        (s, [Effect.logSurfaceError SurfaceError.Timeout])
    ∧ ∀ acq, hasRequestRedraw
        (handle_window_event fs (WinEvent.redrawRequested acq)).2 = true := by
  intro s fs
  refine ⟨rfl, rfl, ?_, rfl, rfl, rfl, ?_⟩
  · intro h
    simp [render_frame, handle_render_result, resize, h.1, h.2]
  · intro acq
    simp [handle_window_event, hasRequestRedraw, List.any_append]

/-- C1: the mode transition evaluated at the start of update_controls is a
pure function of the current mode and the membership predicate of the
held-key set (hence deterministic and independent of any iteration order):
whenever at least one mode-select key is held, the selected mode's key is
held and its priority rank (DEBUG > TERRAIN > VIEW > RAY > PRINT) is
maximal among all held mode-select keys; when no mode-select key is held,
the current mode is retained. -/
theorem mode_select_priority : ∀ (m : KeyboardMode) (k : Keys),
    ((∃ md, k (mode_key md) = true) →
        k (mode_key (mode_select m k)) = true ∧
        ∀ md, k (mode_key md) = true → mode_prio (mode_select m k) ≤ mode_prio md)
    ∧ ((∀ md, k (mode_key md) = false) → mode_select m k = m) := by
  intro m k
  constructor
  · rintro ⟨md0, hmd0⟩
    constructor
    · unfold mode_select
      split_ifs with h1 h2 h3 h4 h5
      · exact h1
      · exact h2
      · exact h3
      · exact h4
      · exact h5
      · cases md0 <;> simp_all [mode_key]
    · intro md hmd
      unfold mode_select
      split_ifs with h1 h2 h3 h4 h5 <;>
        cases md <;> simp_all [mode_key, mode_prio]
  · intro hall
    have d := hall KeyboardMode.DEBUG
    have t := hall KeyboardMode.TERRAIN
    have v := hall KeyboardMode.VIEW
    have r := hall KeyboardMode.RAY
    have p := hall KeyboardMode.PRINT
    simp only [mode_key] at d t v r p
    simp [mode_select, d, t, v, r, p]

/-- A VIEW-mode state with ArrowRight and ShiftLeft held at the initial
parameters (x_rot = 0), exhibiting a negative rotation. -/
def negRotState : MState :=
  { mode := KeyboardMode.VIEW
    keys := Keys.ofList [KeyCode.arrowRight, KeyCode.shiftLeft]
    params := init_params }

/-- C4: the VIEW-mode rotation clamp is asymmetric: with ShiftLeft held,
ArrowLeft sets x_rot to max(0, x_rot + 0.1) (never negative) and ArrowUp
does the same for y_rot, while ArrowRight subtracts 0.1 from x_rot and
ArrowDown subtracts 0.1 from y_rot with no clamp — and the decreasing
direction can indeed go negative, as at x_rot = 0. -/
theorem view_rotation_asymmetric_clamp : ∀ (s : MState),
    ((s.keys KeyCode.arrowLeft = true ∧ s.keys KeyCode.shiftLeft = true) →
        (view_controls s).1.params.view_params.x_rot
          = max 0 (s.params.view_params.x_rot + 0.1)
        ∧ 0 ≤ (view_controls s).1.params.view_params.x_rot)
    ∧ ((s.keys KeyCode.arrowLeft = false ∧ s.keys KeyCode.arrowRight = true ∧
        s.keys KeyCode.shiftLeft = true) →
        (view_controls s).1.params.view_params.x_rot
          = s.params.view_params.x_rot - 0.1)
    ∧ ((s.keys KeyCode.arrowLeft = false ∧ s.keys KeyCode.arrowRight = false ∧
        s.keys KeyCode.arrowUp = true ∧ s.keys KeyCode.shiftLeft = true) →
        (view_controls s).1.params.view_params.y_rot
          = max 0 (s.params.view_params.y_rot + 0.1)
        ∧ 0 ≤ (view_controls s).1.params.view_params.y_rot)
    ∧ ((s.keys KeyCode.arrowLeft = false ∧ s.keys KeyCode.arrowRight = false ∧
        s.keys KeyCode.arrowUp = false ∧ s.keys KeyCode.arrowDown = true ∧
        s.keys KeyCode.shiftLeft = true) →
        (view_controls s).1.params.view_params.y_rot
          = s.params.view_params.y_rot - 0.1)
    ∧ (view_controls negRotState).1.params.view_params.x_rot < 0 := by
  intro s
  refine ⟨?_, ?_, ?_, ?_, ?_⟩
  · rintro ⟨h1, h2⟩
    simp only [view_controls, h1, h2, if_true]
    exact ⟨trivial, le_max_left 0 _⟩
  · rintro ⟨h1, h2, h3⟩
    simp only [view_controls, h1, h2, h3, if_true, if_false, Bool.false_eq_true]
  · rintro ⟨h1, h2, h3, h4⟩
    simp only [view_controls, h1, h2, h3, h4, if_true, if_false, Bool.false_eq_true]
    exact ⟨trivial, le_max_left 0 _⟩
  · rintro ⟨h1, h2, h3, h4, h5⟩
    simp only [view_controls, h1, h2, h3, h4, h5, if_true, if_false, Bool.false_eq_true]
  · have hL : negRotState.keys KeyCode.arrowLeft = false := by decide
    have hR : negRotState.keys KeyCode.arrowRight = true := by decide
    have hS : negRotState.keys KeyCode.shiftLeft = true := by decide
    simp only [view_controls, hL, hR, hS, if_true, if_false, Bool.false_eq_true]
    norm_num [negRotState, init_params]

theorem rayNonneg_ray_controls (s : MState) (h : rayNonneg s) :
    rayNonneg (ray_controls s).1 := by
  obtain ⟨h1, h2, h3⟩ := h
  unfold ray_controls
  split_ifs
  · exact ⟨le_max_left 0 _, h2, h3⟩
  · exact ⟨h1, le_max_left 0 _, h3⟩
  · exact ⟨h1, h2, le_max_left 0 _⟩
  · exact ⟨h1, h2, h3⟩

theorem rayNonneg_update_controls (s : MState) (h : rayNonneg s) :
    rayNonneg (update_controls s).1 := by
  cases hm : mode_select s.mode s.keys <;>
    simp only [update_controls, hm]
  · unfold rayNonneg
    rw [params_debug_controls]
    exact h
  · unfold rayNonneg
    rw [ray_params_view_controls]
    exact h
  · exact h
  · exact rayNonneg_ray_controls _ h
  · exact h

theorem rayNonneg_run_frames (ks : List Keys) :
    ∀ (s : MState), rayNonneg s → rayNonneg (run_frames s ks) := by
  induction ks with
  | nil => intro s h; exact h
  | cons k ks ih =>
      intro s h
      exact ih _ (rayNonneg_update_controls _ h)

/-- C3: starting from the initial parameters, for every sequence of
held-key sets (one per frame, in any mode), the three ray parameters
epsilon, max_steps and max_dist stay non-negative; and each ray-parameter
mutation computes max(0, old + delta) with the per-tick delta in
{-1, 0, +1}. -/
theorem ray_params_nonneg : ∀ (m : KeyboardMode) (ks : List Keys),
    (0 ≤ (run_frames { mode := m, keys := fun _ => false, params := init_params }
            ks).params.ray_params.epsilon
     ∧ 0 ≤ (run_frames { mode := m, keys := fun _ => false, params := init_params }
            ks).params.ray_params.max_steps
     ∧ 0 ≤ (run_frames { mode := m, keys := fun _ => false, params := init_params }
            ks).params.ray_params.max_dist)
    ∧ (∀ s : MState,
        (ray_dval s.keys = 1 ∨ ray_dval s.keys = 0 ∨ ray_dval s.keys = -1)
        ∧ (ray_controls s).1.params.ray_params.epsilon =
            (if s.keys KeyCode.keyE then
               max 0 (s.params.ray_params.epsilon + 1 * ray_dval s.keys)
             else s.params.ray_params.epsilon)
        ∧ (ray_controls s).1.params.ray_params.max_steps =
            (if s.keys KeyCode.keyE then s.params.ray_params.max_steps
             else if s.keys KeyCode.keyS then
               max 0 (s.params.ray_params.max_steps + 1 * ray_dval s.keys)
             else s.params.ray_params.max_steps)
        ∧ (ray_controls s).1.params.ray_params.max_dist =
            (if s.keys KeyCode.keyE then s.params.ray_params.max_dist
             else if s.keys KeyCode.keyS then s.params.ray_params.max_dist
             else if s.keys KeyCode.keyW then
               max 0 (s.params.ray_params.max_dist + 1 * ray_dval s.keys)
             else s.params.ray_params.max_dist)) := by
  intro m ks
  constructor
  · exact rayNonneg_run_frames ks _
      ⟨by norm_num [init_params], by norm_num [init_params], by norm_num [init_params]⟩
  · intro s
    refine ⟨?_, ?_, ?_, ?_⟩
    · unfold ray_dval; split_ifs <;> simp
    · unfold ray_controls; split_ifs <;> rfl
    · unfold ray_controls; split_ifs <;> rfl
    · unfold ray_controls; split_ifs <;> rfl

theorem hasArrayReadback_view_controls (s : MState) :
    hasArrayReadback (view_controls s).2 = false := by
  unfold view_controls; split_ifs <;> rfl

theorem hasArrayReadback_ray_controls (s : MState) :
    hasArrayReadback (ray_controls s).2 = false := by
  unfold ray_controls; split_ifs <;> rfl

theorem hasArrayReadback_terrain_controls (s : MState) :
    hasArrayReadback (terrain_controls s).2 = false := rfl

theorem hasArrayReadback_print_controls (s : MState) :
    hasArrayReadback (print_controls s).2 = false := rfl

/-- C2 (amended): the per-frame update invokes the view-parameter sync
unconditionally on every frame, but the ray-parameter sync only in the
frames whose control step runs in RAY mode with one of KeyE/KeyS/KeyW
held; it is not invoked every frame. -/
theorem update_sync_amended : ∀ (s : MState),
    hasViewWrite (update s).2 = true
    ∧ (hasRayWrite (update s).2 = true ↔
        (mode_select s.mode s.keys = KeyboardMode.RAY ∧
         (s.keys KeyCode.keyE = true ∨ s.keys KeyCode.keyS = true ∨
          s.keys KeyCode.keyW = true))) := by
  intro s
  have tail : hasRayWrite (update s).2 = hasRayWrite (update_controls s).2 := by
    simp [update, hasRayWrite, List.any_append]
  constructor
  · simp [update, hasViewWrite, List.any_append]
  · rw [tail]
    cases hm : mode_select s.mode s.keys <;> simp only [update_controls, hm] <;>
      simp [hasRayWrite_debug_controls, hasRayWrite_view_controls,
        hasRayWrite_terrain_controls, hasRayWrite_ray_controls,
        hasRayWrite_print_controls, hm, or_assoc]

/-- C9: the DEBUG-mode array-readback keys Digit1/Digit2/Digit3 are the
same physical keys as the TERRAIN/VIEW/RAY mode-select keys and mode
selection runs first: in DEBUG mode, a held-key set containing Digit1,
Digit2 or Digit3 but not KeyD switches to TERRAIN, VIEW or RAY
(respectively, under the selection priority) and no debug readback occurs;
and an array readback — together with its 50ms sleep and forced return to
VIEW — fires only when KeyD is also held. -/
theorem debug_digit_keys_mode_switch : ∀ (m : KeyboardMode) (k : Keys) (p : Params),
    (k KeyCode.keyD = false →
        (k KeyCode.digit1 = true →
            (update_controls ⟨KeyboardMode.DEBUG, k, p⟩).1.mode = KeyboardMode.TERRAIN ∧
            hasReadback (update_controls ⟨KeyboardMode.DEBUG, k, p⟩).2 = false) ∧
        (k KeyCode.digit1 = false → k KeyCode.digit2 = true →
            (update_controls ⟨KeyboardMode.DEBUG, k, p⟩).1.mode = KeyboardMode.VIEW ∧
            hasReadback (update_controls ⟨KeyboardMode.DEBUG, k, p⟩).2 = false) ∧
        (k KeyCode.digit1 = false → k KeyCode.digit2 = false → k KeyCode.digit3 = true →
            (update_controls ⟨KeyboardMode.DEBUG, k, p⟩).1.mode = KeyboardMode.RAY ∧
            hasReadback (update_controls ⟨KeyboardMode.DEBUG, k, p⟩).2 = false))
    ∧ (hasArrayReadback (update_controls ⟨m, k, p⟩).2 = true →
        k KeyCode.keyD = true ∧
        hasSleep (update_controls ⟨m, k, p⟩).2 = true ∧
        (update_controls ⟨m, k, p⟩).1.mode = KeyboardMode.VIEW) := by
  intro m k p
  constructor
  · intro hD
    refine ⟨?_, ?_, ?_⟩
    · intro h1
      simp [update_controls, mode_select, hD, h1, terrain_controls, hasReadback]
    · intro h1 h2
      simp [update_controls, mode_select, hD, h1, h2,
        mode_view_controls, hasReadback_view_controls]
    · intro h1 h2 h3
      simp [update_controls, mode_select, hD, h1, h2, h3,
        mode_ray_controls, hasReadback_ray_controls]
  · intro h
    by_cases hD : k KeyCode.keyD = true
    · refine ⟨hD, ?_, ?_⟩
      · simp only [update_controls, mode_select, hD, if_true] at h ⊢
        rw [hasArrayReadback_debug_controls] at h
        rw [hasSleep_debug_controls]
        simp only [Bool.and_eq_true, Bool.or_eq_true, Bool.not_eq_eq_eq_not,
          Bool.not_true] at h
        obtain ⟨hs, hd⟩ := h
        rcases hd with (hd | hd) | hd <;> simp [hd]
      · simp only [update_controls, mode_select, hD, if_true] at h ⊢
        rw [hasArrayReadback_debug_controls] at h
        rw [mode_debug_controls]
        simp only [Bool.and_eq_true, Bool.or_eq_true, Bool.not_eq_eq_eq_not,
          Bool.not_true] at h
        obtain ⟨hs, hd⟩ := h
        rcases hd with (hd | hd) | hd <;> simp [hd]
    · exfalso
      rw [Bool.not_eq_true] at hD
      by_cases h1 : k KeyCode.digit1 = true
      · simp [update_controls, mode_select, hD, h1, terrain_controls,
          hasArrayReadback] at h
      · rw [Bool.not_eq_true] at h1
        by_cases h2 : k KeyCode.digit2 = true
        · simp [update_controls, mode_select, hD, h1, h2,
            hasArrayReadback_view_controls] at h
        · rw [Bool.not_eq_true] at h2
          by_cases h3 : k KeyCode.digit3 = true
          · simp [update_controls, mode_select, hD, h1, h2, h3,
              hasArrayReadback_ray_controls] at h
          · rw [Bool.not_eq_true] at h3
            by_cases h4 : k KeyCode.keyP = true
            · simp [update_controls, mode_select, hD, h1, h2, h3, h4,
                hasArrayReadback_print_controls] at h
            · rw [Bool.not_eq_true] at h4
              simp only [update_controls, mode_select, hD, h1, h2, h3, h4,
                Bool.false_eq_true, if_false] at h
              cases m
              · rw [hasArrayReadback_debug_controls] at h
                simp [h1, h2, h3] at h
              · rw [hasArrayReadback_view_controls] at h
                simp at h
              · rw [hasArrayReadback_terrain_controls] at h
                simp at h
              · rw [hasArrayReadback_ray_controls] at h
                simp at h
              · rw [hasArrayReadback_print_controls] at h
                simp at h
